import Mathlib

/-!
Shallow embedding of the wine-inventory repository pieces under verification:
the wine search-result normalizer and deduplicator
(server/src/types/wine.ts, class WineDataNormalizer), the external wine API
service (server/src/services/wineApiService.ts), the wine model and rack-slot
model (server/src/models/Wine.ts, RackSlot.ts), and the wine route validation
handlers.

Modelling conventions:
  - JavaScript strings are `List Char`; `toLowerCase`, `trim`, regex
    whitespace collapse and character replacement are modelled directly.
  - JavaScript numbers are `ℚ` (ratings, prices, similarity scores) or `Int`
    (years, timestamps); `Math.round` is `jsRound` (round half toward +inf).
  - JavaScript truthiness of a number is `value present and nonzero`; of a
    string, `present and nonempty`.
  - `new Date().getFullYear()` and `Date.now()` are explicit parameters
    (`cy`, `now`), since the code reads the ambient clock.
  - Fallible async operations are `Except JsError`; awaited side effects
    become explicit state passing.
-/

abbrev Str := List Char

/-- Shorthand turning a Lean string literal into the `List Char` model. -/
def str (s : String) : Str := s.toList

/-- Left curly double quote (U+201C), replaced by the normalizer. -/
def lDQuote : Char := Char.ofNat 0x201C

/-- Right curly double quote (U+201D), replaced by the normalizer. -/
def rDQuote : Char := Char.ofNat 0x201D

/-- Left curly single quote (U+2018), replaced by the normalizer. -/
def lSQuote : Char := Char.ofNat 0x2018

/-- Right curly single quote (U+2019), replaced by the normalizer. -/
def rSQuote : Char := Char.ofNat 0x2019

/-- Straight double quote character. -/
def dQuote : Char := Char.ofNat 0x22

/-- Straight single quote character. -/
def sQuote : Char := Char.ofNat 0x27

/-- Model of the JavaScript regex class backslash-s (whitespace). -/
def isWs (c : Char) : Bool := c.isWhitespace

/-- Model of the JavaScript regex word character class (ASCII letters, digits,
underscore), used for the word-boundary assertions in the vineyard-suffix
regex. -/
def isWordChar (c : Char) : Bool := c.isAlphanum || c = Char.ofNat 0x5F

/-- `s.toLowerCase()` (ASCII case folding, as `Char.toLower`). -/
def toLowerStr (s : Str) : Str := s.map Char.toLower

/-- `s.trim()`: strip leading and trailing whitespace. -/
def trimStr (s : Str) : Str :=
  ((s.dropWhile isWs).reverse.dropWhile isWs).reverse

/-- `s.replace(/p+/g, rep)` for a character class `p`: every maximal run of
characters satisfying `p` becomes the single character `rep`. -/
def collapseRuns (p : Char → Bool) (rep : Char) : Str → Str
  | [] => []
  | c :: rest =>
    if p c then rep :: collapseRuns p rep (rest.dropWhile p)
    else c :: collapseRuns p rep rest
termination_by s => s.length
decreasing_by
  · have : (rest.dropWhile p).length ≤ rest.length := (List.dropWhile_sublist p).length_le
    simp only [List.length_cons]
    omega
  · simp

/-- `s.replace(/\s+/g, ' ')`. -/
def collapseWs (s : Str) : Str := collapseRuns isWs (Char.ofNat 0x20) s

/-- `s.replace(/\n+/g, ' ')`. -/
def collapseNl (s : Str) : Str := collapseRuns (fun c => c = Char.ofNat 0x0A) (Char.ofNat 0x20) s

/-- Replace the two curly double-quote characters by a straight quote. -/
def normQuotes (s : Str) : Str :=
  s.map (fun c => if c = lDQuote ∨ c = rDQuote then dQuote else c)

/-- Replace the two curly single-quote characters by a straight apostrophe. -/
def normApos (s : Str) : Str :=
  s.map (fun c => if c = lSQuote ∨ c = rSQuote then sQuote else c)

/-- `s.split(sep)` for a single-character separator, JavaScript semantics
(empty parts preserved, empty string gives one empty part). -/
def splitOnChar (sep : Char) : Str → List Str
  | [] => [[]]
  | c :: rest =>
    match splitOnChar sep rest with
    | [] => [[c]]
    | h :: t => if c = sep then [] :: h :: t else (c :: h) :: t

/-- `part.charAt(0).toUpperCase() + part.slice(1).toLowerCase()`. -/
def capFirst : Str → Str
  | [] => []
  | c :: rest => c.toUpper :: toLowerStr rest

/-- `hay.includes(needle)`: contiguous substring test (true for the empty
needle, as in JavaScript). -/
def isSubstr (needle hay : Str) : Bool :=
  (List.range (hay.length + 1)).any (fun i => decide ((hay.drop i).take needle.length = needle))

/-- `Math.round`: round half away from negative infinity (JavaScript rounds
.5 toward positive infinity). -/
def jsRound (q : ℚ) : Int := ⌊q + 1/2⌋

/-- The three provenance tags of a search result
(`'vivino' | 'wine_api' | 'manual'`). -/
inductive WineSource where
  | vivino
  | wine_api
  | manual
deriving DecidableEq

/-- The string value carried by the `source` field. -/
def sourceName : WineSource → Str
  | .vivino => str "vivino"
  | .wine_api => str "wine_api"
  | .manual => str "manual"

/-- `WineApiSearchResult` from wineApiService.ts. -/
@[ext] structure WineApiSearchResult where
  name : Str
  vineyard : Str
  region : Str
  color : Str
  grape_varieties : List Str
  vintage_year : Option Int
  rating : Option ℚ
  description : Option Str
  price : Option ℚ
  currency : Option Str
  food_pairings : Option (List Str)
  image_url : Option Str
  source : WineSource
deriving DecidableEq

/-- REGION_MAPPING from wine.ts, in source insertion order (the order matters
for the partial-match scan over `Object.entries`). -/
def REGION_MAPPING : List (Str × Str) := [
  (str "napa", str "Napa Valley, California"),
  (str "napa valley", str "Napa Valley, California"),
  (str "napa valley, ca", str "Napa Valley, California"),
  (str "napa, california", str "Napa Valley, California"),
  (str "sonoma", str "Sonoma County, California"),
  (str "sonoma county", str "Sonoma County, California"),
  (str "sonoma, ca", str "Sonoma County, California"),
  (str "bordeaux", str "Bordeaux, France"),
  (str "bordelais", str "Bordeaux, France"),
  (str "burgundy", str "Burgundy, France"),
  (str "bourgogne", str "Burgundy, France"),
  (str "champagne", str "Champagne, France"),
  (str "tuscany", str "Tuscany, Italy"),
  (str "toscana", str "Tuscany, Italy"),
  (str "chianti", str "Chianti, Tuscany, Italy"),
  (str "piedmont", str "Piedmont, Italy"),
  (str "piemonte", str "Piedmont, Italy"),
  (str "rioja", str "Rioja, Spain"),
  (str "la rioja", str "Rioja, Spain"),
  (str "mosel", str "Mosel, Germany"),
  (str "rheingau", str "Rheingau, Germany"),
  (str "pfalz", str "Pfalz, Germany"),
  (str "barossa", str "Barossa Valley, Australia"),
  (str "barossa valley", str "Barossa Valley, Australia"),
  (str "hunter valley", str "Hunter Valley, Australia"),
  (str "clare valley", str "Clare Valley, Australia"),
  (str "coonawarra", str "Coonawarra, Australia"),
  (str "maipo", str "Maipo Valley, Chile"),
  (str "maipo valley", str "Maipo Valley, Chile"),
  (str "colchagua", str "Colchagua Valley, Chile"),
  (str "casablanca", str "Casablanca Valley, Chile"),
  (str "mendoza", str "Mendoza, Argentina"),
  (str "salta", str "Salta, Argentina"),
  (str "stellenbosch", str "Stellenbosch, South Africa"),
  (str "paarl", str "Paarl, South Africa"),
  (str "okanagan", str "Okanagan Valley, British Columbia"),
  (str "okanagan valley", str "Okanagan Valley, British Columbia"),
  (str "niagara", str "Niagara Peninsula, Ontario"),
  (str "niagara peninsula", str "Niagara Peninsula, Ontario")]

/-- GRAPE_VARIETY_MAPPING from wine.ts, in source insertion order. -/
def GRAPE_VARIETY_MAPPING : List (Str × Str) := [
  (str "cabernet sauvignon", str "Cabernet Sauvignon"),
  (str "cab sauv", str "Cabernet Sauvignon"),
  (str "cabernet", str "Cabernet Sauvignon"),
  (str "merlot", str "Merlot"),
  (str "pinot noir", str "Pinot Noir"),
  (str "pinot", str "Pinot Noir"),
  (str "syrah", str "Syrah"),
  (str "shiraz", str "Syrah"),
  (str "grenache", str "Grenache"),
  (str "sangiovese", str "Sangiovese"),
  (str "tempranillo", str "Tempranillo"),
  (str "nebbiolo", str "Nebbiolo"),
  (str "barbera", str "Barbera"),
  (str "malbec", str "Malbec"),
  (str "petit verdot", str "Petit Verdot"),
  (str "cabernet franc", str "Cabernet Franc"),
  (str "carmenere", str "Carménère"),
  (str "carmenère", str "Carménère"),
  (str "zinfandel", str "Zinfandel"),
  (str "primitivo", str "Zinfandel"),
  (str "gamay", str "Gamay"),
  (str "mourvèdre", str "Mourvèdre"),
  (str "mourvedre", str "Mourvèdre"),
  (str "chardonnay", str "Chardonnay"),
  (str "sauvignon blanc", str "Sauvignon Blanc"),
  (str "sauv blanc", str "Sauvignon Blanc"),
  (str "riesling", str "Riesling"),
  (str "pinot grigio", str "Pinot Grigio"),
  (str "pinot gris", str "Pinot Gris"),
  (str "gewürztraminer", str "Gewürztraminer"),
  (str "gewurztraminer", str "Gewürztraminer"),
  (str "viognier", str "Viognier"),
  (str "chenin blanc", str "Chenin Blanc"),
  (str "semillon", str "Sémillon"),
  (str "sémillon", str "Sémillon"),
  (str "albariño", str "Albariño"),
  (str "albarino", str "Albariño"),
  (str "verdejo", str "Verdejo"),
  (str "grüner veltliner", str "Grüner Veltliner"),
  (str "gruner veltliner", str "Grüner Veltliner"),
  (str "moscato", str "Moscato"),
  (str "muscat", str "Muscat"),
  (str "torrontés", str "Torrontés"),
  (str "torrontes", str "Torrontés")]

/-- COLOR_CLASSIFICATION.RED_INDICATORS. -/
def RED_INDICATORS : List Str :=
  [str "cabernet", str "merlot", str "pinot noir", str "syrah", str "shiraz",
   str "grenache", str "sangiovese", str "tempranillo", str "nebbiolo",
   str "barbera", str "malbec", str "zinfandel", str "primitivo",
   str "red wine", str "rouge", str "rosso", str "tinto"]

/-- COLOR_CLASSIFICATION.WHITE_INDICATORS. -/
def WHITE_INDICATORS : List Str :=
  [str "chardonnay", str "sauvignon blanc", str "riesling", str "pinot grigio",
   str "pinot gris", str "gewürztraminer", str "viognier", str "chenin blanc",
   str "semillon", str "albariño", str "white wine", str "blanc",
   str "bianco", str "blanco"]

/-- COLOR_CLASSIFICATION.SPARKLING_INDICATORS. -/
def SPARKLING_INDICATORS : List Str :=
  [str "champagne", str "prosecco", str "cava", str "crémant", str "sparkling",
   str "spumante", str "sekt", str "espumoso", str "mousseux"]

/-- COLOR_CLASSIFICATION.ROSÉ_INDICATORS. -/
def ROSE_INDICATORS : List Str :=
  [str "rosé", str "rose", str "rosado", str "rosato", str "pink"]

/-- First value in an association list whose key equals the query. -/
def assocLookup (key : Str) : List (Str × Str) → Option Str
  | [] => none
  | kv :: rest => if kv.1 = key then some kv.2 else assocLookup key rest

/-- First value in an association list whose key partially matches the query
(`cleaned.includes(key) || key.includes(cleaned)`). -/
def assocPartialLookup (cleaned : Str) : List (Str × Str) → Option Str
  | [] => none
  | kv :: rest =>
    if isSubstr kv.1 cleaned || isSubstr cleaned kv.1 then some kv.2
    else assocPartialLookup cleaned rest

/-- WineDataNormalizer.normalizeRegion. -/
def normalizeRegion (region : Str) : Str :=
  if region = [] then str "Unknown Region"
  else
    let cleaned := trimStr (toLowerStr region)
    match assocLookup cleaned REGION_MAPPING with
    | some v => v
    | none =>
      match assocPartialLookup cleaned REGION_MAPPING with
      | some v => v
      | none =>
        List.intercalate (str ", ")
          (((splitOnChar (Char.ofNat 0x2C) region).map trimStr).map capFirst)

/-- The per-variety normalization inside
WineDataNormalizer.normalizeGrapeVarieties. -/
def normalizeOneGrape (variety : Str) : Str :=
  let cleaned := trimStr (toLowerStr variety)
  match assocLookup cleaned GRAPE_VARIETY_MAPPING with
  | some v => v
  | none =>
    match assocPartialLookup cleaned GRAPE_VARIETY_MAPPING with
    | some v => v
    | none =>
      List.intercalate (str " ")
        ((splitOnChar (Char.ofNat 0x20) variety).map capFirst)

/-- The recursion behind dedupFirst: `seen` holds the values kept so far. -/
def dedupFirstGo (seen : List Str) : List Str → List Str
  | [] => []
  | x :: rest =>
    if x ∈ seen then dedupFirstGo seen rest
    else x :: dedupFirstGo (x :: seen) rest

/-- `array.filter((v, i, a) => a.indexOf(v) === i)`: keep first occurrences. -/
def dedupFirst (l : List Str) : List Str := dedupFirstGo [] l

/-- WineDataNormalizer.normalizeGrapeVarieties. -/
def normalizeGrapeVarieties (varieties : List Str) : List Str :=
  if varieties = [] then []
  else dedupFirst (varieties.map normalizeOneGrape)

/-- WineDataNormalizer.determineWineColor. -/
def determineWineColor (wine : WineApiSearchResult) : Str :=
  let searchText := toLowerStr
    (wine.name ++ [Char.ofNat 0x20] ++ List.intercalate (str " ") wine.grape_varieties
      ++ [Char.ofNat 0x20] ++ wine.description.getD [])
  if SPARKLING_INDICATORS.any (fun ind => isSubstr ind searchText) then str "Sparkling"
  else if ROSE_INDICATORS.any (fun ind => isSubstr ind searchText) then str "Rosé"
  else if WHITE_INDICATORS.any (fun ind => isSubstr ind searchText) then str "White"
  else if RED_INDICATORS.any (fun ind => isSubstr ind searchText) then str "Red"
  else if wine.color = [] then str "Red" else wine.color

/-- WineDataNormalizer.normalizeName. -/
def normalizeName (name : Str) : Str :=
  if name = [] then []
  else normApos (normQuotes (collapseWs (trimStr name)))

/-- The alternatives of the vineyard-suffix regex
`\b(winery|wines|vineyard|estate|cellars?|domaine|château|chateau)\b$`.
`cellars?` contributes `cellars` and `cellar`; at most one alternative can
match the suffix of a given string, so matching the first listed suffix word
reproduces the regex semantics. -/
def winerySuffixWords : List Str :=
  [str "winery", str "wines", str "vineyard", str "estate", str "cellars",
   str "cellar", str "domaine", str "château", str "chateau"]

/-- Whether suffix word `w` matches at the end of `s` under the regex: the
lowercased tail of `s` equals `w` and the word-boundary assertion before it
holds (start of string or a preceding non-word character). -/
def winerySuffixMatches (s w : Str) : Bool :=
  decide (w.length ≤ s.length) &&
  decide ((toLowerStr s).drop (s.length - w.length) = w) &&
  (decide (s.length = w.length) ||
    !(isWordChar (s.getD (s.length - w.length - 1) (Char.ofNat 0x20))))

/-- `s.replace(/\b(winery|...)\b$/i, '')`. -/
def stripWinerySuffix (s : Str) : Str :=
  match winerySuffixWords.find? (fun w => winerySuffixMatches s w) with
  | some w => s.take (s.length - w.length)
  | none => s

/-- WineDataNormalizer.normalizeVineyard. -/
def normalizeVineyard (vineyard : Str) : Str :=
  if vineyard = [] then str "Unknown Winery"
  else normApos (normQuotes (trimStr (stripWinerySuffix (collapseWs (trimStr vineyard)))))

/-- WineDataNormalizer.normalizeVintage. The current year `cy` is the value
the code reads from `new Date().getFullYear()`. A vintage of 0 is falsy in
JavaScript and is treated as absent. -/
def normalizeVintage (cy : Int) (vintage : Option Int) : Option Int :=
  match vintage with
  | none => none
  | some y =>
    if y = 0 then none
    else if y < 1800 ∨ y > cy then none
    else some y

/-- WineDataNormalizer.normalizePrice. -/
def normalizePrice (price : Option ℚ) : Option ℚ :=
  match price with
  | none => none
  | some p =>
    if p ≤ 0 then none
    else if p < 1 ∨ p > 10000 then none
    else some ((jsRound (p * 100) : ℚ) / 100)

/-- WineDataNormalizer.normalizeRating. A rating of 0 is falsy in JavaScript
and is treated as absent. -/
def normalizeRating (rating : Option ℚ) (source : Option Str) : Option Int :=
  match rating with
  | none => none
  | some r =>
    if r = 0 then none
    else if source = some (str "vivino") then
      if 1 ≤ r ∧ r ≤ 5 then some (jsRound (r * 20)) else none
    else if source = some (str "wine_api") then
      if 1 ≤ r ∧ r ≤ 100 then some (jsRound r) else none
    else
      if 1 ≤ r ∧ r ≤ 5 then some (jsRound (r * 20))
      else if 1 ≤ r ∧ r ≤ 100 then some (jsRound r)
      else none

/-- WineDataNormalizer.normalizeDescription. -/
def normalizeDescription (description : Option Str) : Option Str :=
  match description with
  | none => none
  | some d =>
    if d = [] then none
    else some ((normApos (normQuotes (collapseNl (collapseWs (trimStr d))))).take 1000)

/-- `wine.currency || 'USD'`. -/
def jsOrStr (o : Option Str) (d : Str) : Str :=
  match o with
  | some s => if s = [] then d else s
  | none => d

/-- WineDataNormalizer.normalizeWineData. `cy` is the ambient current year
consumed by the vintage validation. -/
def normalizeWineData (cy : Int) (wine : WineApiSearchResult) : WineApiSearchResult :=
  { wine with
    name := normalizeName wine.name
    vineyard := normalizeVineyard wine.vineyard
    region := normalizeRegion wine.region
    color := determineWineColor wine
    grape_varieties := normalizeGrapeVarieties wine.grape_varieties
    vintage_year := normalizeVintage cy wine.vintage_year
    rating := (normalizeRating wine.rating (some (sourceName wine.source))).map (fun n => (n : ℚ))
    description := normalizeDescription wine.description
    price := normalizePrice wine.price
    currency := some (jsOrStr wine.currency (str "USD"))
    food_pairings := some ((wine.food_pairings.getD []).filter (fun p => 0 < (trimStr p).length)) }

/-- The match-finding loop of WineDataNormalizer.stringSimilarity: returns
the match count and the two boolean match masks.  The fold over `i` mirrors
the outer `for` loop; the inner search takes the first unmatched index `j`
inside the match window with an equal character. -/
def jaroFindMatches (s1 s2 : Str) (mw : Nat) : Nat × List Bool × List Bool :=
  (List.range s1.length).foldl
    (fun st i =>
      let start := i - mw
      let stop := min (i + mw + 1) s2.length
      match (List.range' start (stop - start)).find?
          (fun j => !(st.2.2.getD j false) &&
            decide (s1.getD i (Char.ofNat 0x20) = s2.getD j (Char.ofNat 0x20))) with
      | some j => (st.1 + 1, st.2.1.set i true, st.2.2.set j true)
      | none => st)
    (0, List.replicate s1.length false, List.replicate s2.length false)

/-- The transposition-counting loop of stringSimilarity: the fold carries the
cursor `k` into `s2Matches` and the transposition count. -/
def jaroTranspositions (s1 s2 : Str) (s1M s2M : List Bool) : Nat :=
  ((List.range s1.length).foldl
    (fun st i =>
      if s1M.getD i false then
        let k := st.1 + ((s2M.drop st.1).takeWhile (fun b => !b)).length
        (k + 1,
          if s1.getD i (Char.ofNat 0x20) = s2.getD k (Char.ofNat 0x20) then st.2
          else st.2 + 1)
      else st)
    (0, 0)).2

/-- The common-prefix length used by the Jaro-Winkler scaling, capped at
`min(len1, len2, 4)`. -/
def commonPrefixLen (s1 s2 : Str) : Nat :=
  ((List.range (min (min s1.length s2.length) 4)).takeWhile
    (fun i => decide (s1.getD i (Char.ofNat 0x20) = s2.getD i (Char.ofNat 0x20)))).length

/-- WineDataNormalizer.stringSimilarity (Jaro-Winkler), on the rationals. -/
def stringSimilarity (str1 str2 : Str) : ℚ :=
  if str1 = [] ∨ str2 = [] then 0
  else
    let s1 := trimStr (toLowerStr str1)
    let s2 := trimStr (toLowerStr str2)
    if s1 = s2 then 1
    else
      let len1 := s1.length
      let len2 := s2.length
      if len1 = 0 ∨ len2 = 0 then 0
      else
        let mwI : Int := (max len1 len2 : Int) / 2 - 1
        if mwI < 0 then 0
        else
          let fm := jaroFindMatches s1 s2 mwI.toNat
          let m := fm.1
          if m = 0 then 0
          else
            let t := jaroTranspositions s1 s2 fm.2.1 fm.2.2
            let jaro : ℚ :=
              ((m : ℚ) / len1 + (m : ℚ) / len2 + ((m : ℚ) - (t : ℚ) / 2) / m) / 3
            jaro + (1 / 10) * (commonPrefixLen s1 s2 : ℚ) * (1 - jaro)

/-- JavaScript truthiness of an optional numeric field. -/
def truthyInt (o : Option Int) : Bool :=
  match o with
  | some v => decide (v ≠ 0)
  | none => false

/-- WineDataNormalizer.calculateSimilarity. -/
def calculateSimilarity (w1 w2 : WineApiSearchResult) : ℚ :=
  let nameSim := stringSimilarity w1.name w2.name
  let vineyardSim := stringSimilarity w1.vineyard w2.vineyard
  let regionSim := stringSimilarity w1.region w2.region
  let vintBoth := truthyInt w1.vintage_year && truthyInt w2.vintage_year
  let score := nameSim * (4/10) + vineyardSim * (3/10)
    + (if vintBoth then (if w1.vintage_year = w2.vintage_year then (1:ℚ) else 0) * (2/10) else 0)
    + regionSim * (1/10)
  let factors : ℚ := (4/10) + (3/10) + (if vintBoth then (2/10) else 0) + (1/10)
  if factors > 0 then score / factors else 0

/-- WineDataNormalizer.isDuplicate: similarity strictly above the 0.8
threshold. -/
def isDuplicate (w1 w2 : WineApiSearchResult) : Bool :=
  decide (calculateSimilarity w1 w2 > 8/10)

/-- The accumulator loop of WineDataNormalizer.removeDuplicates: `acc` is the
`unique` array; a candidate is dropped when it is a duplicate of some already
kept result. -/
def removeDuplicatesGo (acc : List WineApiSearchResult) :
    List WineApiSearchResult → List WineApiSearchResult
  | [] => acc
  | w :: rest =>
    if acc.any (fun existing => isDuplicate w existing) then removeDuplicatesGo acc rest
    else removeDuplicatesGo (acc ++ [w]) rest

/-- WineDataNormalizer.removeDuplicates. -/
def removeDuplicates (wines : List WineApiSearchResult) : List WineApiSearchResult :=
  removeDuplicatesGo [] wines

/-- The weighted similarity score exactly as the specification words it: the
weighted sum of Jaro-Winkler name (0.4), vineyard (0.3), vintage exact match
(0.2, included only when both vintage years are present, i.e. truthy), and
region (0.1) similarities, divided by the sum of the included weights. -/
def specWeightedSimilarity (w1 w2 : WineApiSearchResult) : ℚ :=
  let included := truthyInt w1.vintage_year && truthyInt w2.vintage_year
  let vintTerm : ℚ :=
    if included then (if w1.vintage_year = w2.vintage_year then (1:ℚ) else 0) * (2/10) else 0
  let weightSum : ℚ := (4/10) + (3/10) + (1/10) + (if included then (2/10) else 0)
  (stringSimilarity w1.name w2.name * (4/10)
    + stringSimilarity w1.vineyard w2.vineyard * (3/10)
    + vintTerm
    + stringSimilarity w1.region w2.region * (1/10)) / weightSum

/-- The error shape inspected by WineApiService.isNonRetryableError. -/
structure JsError where
  code : Option Str
  message : Option Str
  status : Option Int
deriving DecidableEq

/-- WineApiService.isNonRetryableError, with the source precedence: the
`code` test first, then the navigation-timeout message test (returns
retryable), then the HTTP status test, and retry by default. -/
def isNonRetryableError (e : JsError) : Bool :=
  if decide (e.code = some (str "ENOTFOUND")) || decide (e.code = some (str "ECONNREFUSED")) then
    true
  else if (match e.message with
           | some m => isSubstr (str "Navigation timeout") m
           | none => false) then
    false
  else if decide (e.status = some 404) || decide (e.status = some 403) then
    true
  else
    false

/-- MAX_RETRIES from wineApiService.ts. -/
def MAX_RETRIES : Nat := 3

/-- RETRY_DELAYS from wineApiService.ts (milliseconds). -/
def RETRY_DELAYS : List Nat := [1000, 2000, 4000]

/-- WineApiService.retryWithExponentialBackoff, from loop iteration
`attempt` onward.  `f i` is the outcome of the operation on attempt `i`
(zero-based); the returned list is the sequence of back-off waits performed,
in milliseconds.  A non-retryable error is rethrown with no wait and no
further attempts; otherwise the loop waits `RETRY_DELAYS[attempt]` before the
next attempt, and the last error is thrown after the final attempt. -/
def retryFrom {α : Type} (f : Nat → Except JsError α) (attempt : Nat) :
    Except JsError α × List Nat :=
  match f attempt with
  | .ok a => (.ok a, [])
  | .error e =>
    if isNonRetryableError e then (.error e, [])
    else if h : attempt + 1 < MAX_RETRIES then
      let r := retryFrom f (attempt + 1)
      (r.1, RETRY_DELAYS.getD attempt 0 :: r.2)
    else (.error e, [])
termination_by MAX_RETRIES - attempt
decreasing_by omega

/-- WineApiService.retryWithExponentialBackoff (whole loop, starting at
attempt 0). -/
def retryWithExponentialBackoff {α : Type} (f : Nat → Except JsError α) :
    Except JsError α × List Nat :=
  retryFrom f 0

/-- Abstract timestamps (`new Date()` values / `Date.now()` milliseconds). -/
abbrev Time := Nat

/-- The `consumption_status` enum of a wine row. -/
inductive ConsumptionStatus where
  | available
  | consumed
  | reserved
deriving DecidableEq

/-- A row of the `wines` table, restricted to the columns the modelled
operations read or write. -/
structure WineRow where
  id : Str
  name : Str
  rack_slot : Option Str
  consumption_status : ConsumptionStatus
  date_consumed : Option Time
  rating : Option ℚ
  vintage_year : Option Int
  updated_at : Time
deriving DecidableEq

/-- A row of the `rack_slots` table (RackSlot.ts). -/
structure SlotRow where
  slot_id : Str
  wine_id : Option Str
  is_occupied : Bool
  last_updated : Time
  updated_at : Time
deriving DecidableEq

/-- The stored database state relevant to the wine and rack-slot models. -/
structure DBState where
  wines : List WineRow
  rackSlots : List SlotRow
deriving DecidableEq

/-- RackSlotModel.clearSlotByWineId: every slot row whose `wine_id` equals
the given wine has `wine_id` set to null and `is_occupied` set to false (and
its timestamps refreshed). -/
def clearSlotByWineId (now : Time) (wineId : Str) (slots : List SlotRow) : List SlotRow :=
  slots.map (fun s =>
    if s.wine_id = some wineId then
      { s with wine_id := none, is_occupied := false, last_updated := now, updated_at := now }
    else s)

/-- `UpdateWineRequest` as consumed by WineModel.update: an outer `none`
means the field is absent from the update; for `rack_slot` the inner option
distinguishes an explicit null from a value. -/
structure UpdateWineReq where
  name : Option Str
  rack_slot : Option (Option Str)
  consumption_status : Option ConsumptionStatus
  date_consumed : Option Time
  rating : Option ℚ
  vintage_year : Option Int
deriving DecidableEq

/-- The empty update (no fields present). -/
def emptyUpdate : UpdateWineReq :=
  { name := none, rack_slot := none, consumption_status := none,
    date_consumed := none, rating := none, vintage_year := none }

/-- The knex `.update(...)` row transformation applied by WineModel.update to
a matching row: present fields overwrite, `updated_at` is refreshed. -/
def applyWineUpdate (now : Time) (u : UpdateWineReq) (w : WineRow) : WineRow :=
  { w with
    name := u.name.getD w.name
    rack_slot := match u.rack_slot with
      | some v => v
      | none => w.rack_slot
    consumption_status := u.consumption_status.getD w.consumption_status
    date_consumed := match u.date_consumed with
      | some d => some d
      | none => w.date_consumed
    rating := match u.rating with
      | some r => some r
      | none => w.rating
    vintage_year := match u.vintage_year with
      | some v => some v
      | none => w.vintage_year
    updated_at := now }

/-- WineModel.update: when the update sets `consumption_status` to Consumed,
it first clears any rack-slot row assigned to the wine and forces the row
update to null out `rack_slot`; then the matching wine rows are updated. -/
def wineModelUpdate (now : Time) (id : Str) (u : UpdateWineReq) (st : DBState) : DBState :=
  let consuming := u.consumption_status = some ConsumptionStatus.consumed
  let slots := if consuming then clearSlotByWineId now id st.rackSlots else st.rackSlots
  let u2 := if consuming then { u with rack_slot := some none } else u
  { wines := st.wines.map (fun w => if w.id = id then applyWineUpdate now u2 w else w)
    rackSlots := slots }

/-- WineModel.markConsumed: clears the rack-slot assignment, then sets the
wine to Consumed with a null `rack_slot` and the given (or current)
consumption date. -/
def wineModelMarkConsumed (now : Time) (id : Str) (consumedDate : Option Time)
    (st : DBState) : DBState :=
  { wines := st.wines.map (fun w =>
      if w.id = id then
        { w with consumption_status := ConsumptionStatus.consumed,
                 date_consumed := some (consumedDate.getD now),
                 rack_slot := none,
                 updated_at := now }
      else w)
    rackSlots := clearSlotByWineId now id st.rackSlots }

/-- WineModel.findById on the modelled state. -/
def wineModelFindById (id : Str) (st : DBState) : Option WineRow :=
  st.wines.find? (fun w => decide (w.id = id))

/-- The POST /api/wines/:id/consume handler: 404 when the wine does not
exist, 400 when it is already consumed, otherwise markConsumed with the
supplied or current date. -/
def consumeWineHandler (now : Time) (id : Str) (consumedDate : Option Time)
    (st : DBState) : Nat × DBState :=
  match wineModelFindById id st with
  | none => (404, st)
  | some w =>
    if w.consumption_status = ConsumptionStatus.consumed then (400, st)
    else (200, wineModelMarkConsumed now id (some (consumedDate.getD now)) st)

/-- The request body fields inspected by the POST and PUT wine route
handlers. -/
structure WineReqBody where
  name : Option Str
  vineyard : Option Str
  region : Option Str
  color : Option Str
  grape_varieties : Option (List Str)
  vintage_year : Option Int
  rating : Option ℚ
  rack_slot : Option Str
  consumption_status : Option Str
  date_consumed : Option Time
deriving DecidableEq

/-- JavaScript truthiness of an optional string field. -/
def truthyStr (o : Option Str) : Bool :=
  match o with
  | some s => decide (s ≠ [])
  | none => false

/-- JavaScript truthiness of an optional rational field. -/
def truthyRat (o : Option ℚ) : Bool :=
  match o with
  | some q => decide (q ≠ 0)
  | none => false

/-- The valid colors accepted by the route validation. -/
def validColors : List Str :=
  [str "Red", str "White", str "Rosé", str "Sparkling", str "Dessert", str "Fortified"]

/-- The valid consumption statuses accepted by the PUT route validation. -/
def validStatuses : List Str :=
  [str "Available", str "Consumed", str "Reserved"]

/-- The vintage-year rejection test of the wine routes:
`req.body.vintage_year && (vintage_year < 1800 || vintage_year > currentYear)`.
A vintage of 0 is falsy and skips the check. -/
def vintageRejected (cy : Int) (v : Option Int) : Bool :=
  match v with
  | some y => decide (y ≠ 0) && (decide (y < 1800) || decide (y > cy))
  | none => false

/-- The rating rejection test of the wine routes:
`req.body.rating && (rating < 1 || rating > 100)`. -/
def ratingRejected (r : Option ℚ) : Bool :=
  match r with
  | some q => decide (q ≠ 0) && (decide (q < 1) || decide (q > 100))
  | none => false

/-- The wine row created by the POST handler from a validated body
(WineModel.create; a falsy vintage or rating is stored as absent). -/
def mkWineRowFromBody (now : Time) (newId : Str) (b : WineReqBody) : WineRow :=
  { id := newId
    name := trimStr (b.name.getD [])
    rack_slot := b.rack_slot.map trimStr
    consumption_status := ConsumptionStatus.available
    date_consumed := none
    rating := if truthyRat b.rating then b.rating else none
    vintage_year := if truthyInt b.vintage_year then b.vintage_year else none
    updated_at := now }

/-- The POST /api/wines handler: required-field check, color check, vintage
range check, rating range check, then creation.  Returns the HTTP status and
the resulting stored state. -/
def postWineHandler (cy : Int) (now : Time) (newId : Str) (b : WineReqBody)
    (st : DBState) : Nat × DBState :=
  if !(truthyStr b.name && truthyStr b.vineyard && truthyStr b.region
      && truthyStr b.color && b.grape_varieties.isSome) then (400, st)
  else if !(validColors.contains (b.color.getD [])) then (400, st)
  else if vintageRejected cy b.vintage_year then (400, st)
  else if ratingRejected b.rating then (400, st)
  else (201, { st with wines := st.wines ++ [mkWineRowFromBody now newId b] })

/-- Parse a consumption-status string from a request body. -/
def parseStatus (s : Str) : Option ConsumptionStatus :=
  if s = str "Available" then some ConsumptionStatus.available
  else if s = str "Consumed" then some ConsumptionStatus.consumed
  else if s = str "Reserved" then some ConsumptionStatus.reserved
  else none

/-- The update request assembled by the PUT handler from the provided body
fields (strings trimmed; absent fields omitted). -/
def toUpdateReq (b : WineReqBody) : UpdateWineReq :=
  { name := b.name.map trimStr
    rack_slot := b.rack_slot.map (fun s => some (trimStr s))
    consumption_status := b.consumption_status.bind parseStatus
    date_consumed := b.date_consumed
    rating := b.rating
    vintage_year := b.vintage_year }

/-- The PUT /api/wines/:id handler: 404 when the wine does not exist, then
color, vintage-range, rating-range and status validation, then
WineModel.update. -/
def putWineHandler (cy : Int) (now : Time) (id : Str) (b : WineReqBody)
    (st : DBState) : Nat × DBState :=
  match wineModelFindById id st with
  | none => (404, st)
  | some _ =>
    if truthyStr b.color && !(validColors.contains (b.color.getD [])) then (400, st)
    else if vintageRejected cy b.vintage_year then (400, st)
    else if ratingRejected b.rating then (400, st)
    else if truthyStr b.consumption_status
        && !(validStatuses.contains (b.consumption_status.getD [])) then (400, st)
    else (200, wineModelUpdate now id (toUpdateReq b) st)

/-- `WineApiSearchOptions` from wineApiService.ts. -/
structure WineApiSearchOptions where
  query : Str
  vintage : Option Int
  region : Option Str
  limit : Option Nat
deriving DecidableEq

/-- `options.limit || d`: JavaScript or-default on an optional count
(a limit of 0 is falsy and falls back to the default). -/
def jsOrNat (o : Option Nat) (d : Nat) : Nat :=
  match o with
  | some n => if n = 0 then d else n
  | none => d

/-- `options.vintage || 2019`. -/
def jsOrInt (o : Option Int) (d : Int) : Int :=
  match o with
  | some v => if v = 0 then d else v
  | none => d

/-- The mock result list returned by WineApiService.searchWineApi. -/
def mockWineApiResults (opts : WineApiSearchOptions) : List WineApiSearchResult :=
  [{ name := opts.query ++ str " Estate"
     vineyard := str "Heritage Vineyards"
     region := jsOrStr opts.region (str "Sonoma County")
     color := str "Red"
     grape_varieties := [str "Pinot Noir"]
     vintage_year := some (jsOrInt opts.vintage 2019)
     rating := some 92
     description := some (str "Elegant wine with bright acidity and cherry flavors.")
     price := some (77/2)
     currency := some (str "USD")
     food_pairings := some [str "Salmon", str "Duck", str "Mushroom dishes"]
     image_url := none
     source := WineSource.wine_api }]

/-- WineApiService.searchWine: the Vivino attempt and the wine-API attempt
are each guarded by try/catch, so a thrown failure contributes no results;
the concatenated results (Vivino first) are normalized element-wise,
deduplicated, and cut to the first `options.limit || 10` entries.  The two
source outcomes are parameters because they depend on the network. -/
def searchWine (cy : Int) (vivinoOutcome wineApiOutcome : Except JsError (List WineApiSearchResult))
    (limit : Option Nat) : List WineApiSearchResult :=
  let results :=
    (match vivinoOutcome with
     | .ok l => l
     | .error _ => []) ++
    (match wineApiOutcome with
     | .ok l => l
     | .error _ => [])
  let normalizedResults := results.map (normalizeWineData cy)
  (removeDuplicates normalizedResults).take (jsOrNat limit 10)

/-- searchWine with the wine-API leg instantiated at its actual mock
implementation (which always succeeds). -/
def searchWineWithMock (cy : Int) (opts : WineApiSearchOptions)
    (vivinoOutcome : Except JsError (List WineApiSearchResult)) : List WineApiSearchResult :=
  searchWine cy vivinoOutcome (.ok (mockWineApiResults opts)) opts.limit

/-- The normalization-and-deduplication pipeline named by the specification:
element-wise normalizeWineData followed by removeDuplicates.  `cy` is the
ambient current year read by the vintage validation. -/
def normalizeAndDedup (cy : Int) (wines : List WineApiSearchResult) : List WineApiSearchResult :=
  removeDuplicates (wines.map (normalizeWineData cy))

/-- The mutable instance state of WineApiService: the recorded time of the
last outbound request, the request counter, the stored browser instance
(identified by a launch number) and the number of launches performed so far
(used to distinguish a reused instance from a fresh one). -/
structure ServiceState where
  lastRequestTime : Int
  requestCount : Nat
  browser : Option Nat
  launches : Nat
deriving DecidableEq

/-- RATE_LIMIT_DELAY from wineApiService.ts (milliseconds). -/
def RATE_LIMIT_DELAY : Int := 2000

/-- WineApiService.rateLimit at current clock `now`: when less than
RATE_LIMIT_DELAY has elapsed since the recorded last request, sleep the
difference; then record the post-sleep clock as the last request time and
increment the request counter.  Returns the new state and the sleep
duration. -/
def rateLimitStep (now : Int) (s : ServiceState) : ServiceState × Int :=
  let timeSinceLastRequest := now - s.lastRequestTime
  let wait : Int :=
    if timeSinceLastRequest < RATE_LIMIT_DELAY then RATE_LIMIT_DELAY - timeSinceLastRequest
    else 0
  ({ s with lastRequestTime := now + wait, requestCount := s.requestCount + 1 }, wait)

/-- WineApiService.getBrowser: reuse the stored browser when present,
otherwise launch a fresh one and store it. -/
def getBrowserStep (s : ServiceState) : Nat × ServiceState :=
  match s.browser with
  | some b => (b, s)
  | none => (s.launches, { s with browser := some s.launches, launches := s.launches + 1 })

/-- WineApiService.closeBrowser: close the stored browser (if any) and reset
the stored reference to null. -/
def closeBrowserStep (s : ServiceState) : ServiceState :=
  { s with browser := none }

/-- WineApiService.cleanup, which just awaits closeBrowser. -/
def cleanupStep (s : ServiceState) : ServiceState :=
  closeBrowserStep s

/-- The effect of WineApiService.performVivinoSearch on the modelled service
state: it awaits rateLimit first, then getBrowser (the scraping itself does
not touch the modelled state). -/
def performVivinoSearchState (now : Int) (s : ServiceState) : ServiceState :=
  (getBrowserStep (rateLimitStep now s).1).2

/-- The effect of WineApiService.searchWineApi on the service state: it
awaits rateLimit first and otherwise only builds the mock results. -/
def searchWineApiState (now : Int) (s : ServiceState) : ServiceState :=
  (rateLimitStep now s).1

/-- The effect of WineApiService.getWineDetails on the service state: it
awaits rateLimit first and then dispatches on the source. -/
def getWineDetailsState (now : Int) (s : ServiceState) : ServiceState :=
  (rateLimitStep now s).1

/-- The effect of WineApiService.suggestFoodPairings on the service state: it
awaits rateLimit first and then computes pairings purely. -/
def suggestFoodPairingsState (now : Int) (s : ServiceState) : ServiceState :=
  (rateLimitStep now s).1

/-- A concrete search result used to instantiate proved properties. -/
def sampleWine : WineApiSearchResult :=
  { name := str "Opus One", vineyard := str "Opus One Winery", region := str "Napa",
    color := str "Red", grape_varieties := [str "Cabernet Sauvignon"],
    vintage_year := some 2019, rating := some (9/2), description := none,
    price := some 60, currency := some (str "USD"), food_pairings := none,
    image_url := none, source := WineSource.vivino }

/-- A concrete error with no code, no message and no status: classified as
retryable (unknown errors retry). -/
def retryableErr : JsError := { code := none, message := none, status := none }

/-- A concrete operation that fails with a retryable error on every
attempt. -/
def alwaysRetryErrOp : Nat → Except JsError Nat := fun _ => .error retryableErr

/-- A concrete rack slot assigned to wine-1. -/
def sampleSlot : SlotRow :=
  { slot_id := str "A1", wine_id := some (str "wine-1"), is_occupied := true,
    last_updated := 0, updated_at := 0 }

/-- A concrete available wine row sitting in slot A1. -/
def sampleWineRow : WineRow :=
  { id := str "wine-1", name := str "Merlot", rack_slot := some (str "A1"),
    consumption_status := ConsumptionStatus.available, date_consumed := none,
    rating := none, vintage_year := some 2019, updated_at := 0 }

/-- A concrete stored state with one wine and one occupied slot. -/
def sampleDB : DBState := { wines := [sampleWineRow], rackSlots := [sampleSlot] }

/-- A concrete update request setting the status to Consumed. -/
def consumeUpdate : UpdateWineReq :=
  { emptyUpdate with consumption_status := some ConsumptionStatus.consumed }

/-- A concrete creation body whose vintage year 1700 is below the allowed
range. -/
def badVintageBody : WineReqBody :=
  { name := some (str "Old Wine"), vineyard := some (str "V"), region := some (str "R"),
    color := some (str "Red"), grape_varieties := some [], vintage_year := some 1700,
    rating := some 50, rack_slot := none, consumption_status := none,
    date_consumed := none }

/-- A concrete wine whose vintage year 2027 lies one year in the future
relative to a 2026 clock. -/
def futureVintageWine : WineApiSearchResult :=
  { name := str "Test Cellar Red", vineyard := str "V", region := str "R",
    color := str "Red", grape_varieties := [], vintage_year := some 2027,
    rating := none, description := none, price := none, currency := none,
    food_pairings := none, image_url := none, source := WineSource.manual }

/-- A concrete fresh service state (no request yet, no browser stored). -/
def sampleService : ServiceState :=
  { lastRequestTime := 0, requestCount := 0, browser := none, launches := 0 }

/-- The kept list of removeDuplicates satisfies: no later kept result is a
duplicate of an earlier kept result. -/
def noLaterDup (l : List WineApiSearchResult) : Prop :=
  l.Pairwise (fun e x => isDuplicate x e = false)

-- Helper lemmas about the removeDuplicates accumulator loop.

theorem removeDuplicatesGo_append (xs : List WineApiSearchResult) :
    ∀ acc, ∃ t, removeDuplicatesGo acc xs = acc ++ t ∧ t.Sublist xs := by
  induction xs with
  | nil =>
    intro acc
    exact ⟨[], by simp [removeDuplicatesGo], List.nil_sublist _⟩
  | cons w rest ih =>
    intro acc
    simp only [removeDuplicatesGo]
    cases hA : acc.any (fun existing => isDuplicate w existing)
    · simp only [Bool.false_eq_true, if_false]
      obtain ⟨t, ht, hs⟩ := ih (acc ++ [w])
      refine ⟨w :: t, ?_, hs.cons₂ w⟩
      simp only [ht, List.append_assoc, List.singleton_append]
    · simp only [if_true]
      obtain ⟨t, ht, hs⟩ := ih acc
      exact ⟨t, ht, hs.cons w⟩

theorem removeDuplicatesGo_pairwise (xs : List WineApiSearchResult) :
    ∀ acc, noLaterDup acc → noLaterDup (removeDuplicatesGo acc xs) := by
  induction xs with
  | nil => intro acc h; simpa [removeDuplicatesGo] using h
  | cons w rest ih =>
    intro acc hacc
    simp only [removeDuplicatesGo]
    cases hA : acc.any (fun existing => isDuplicate w existing)
    · simp only [Bool.false_eq_true, if_false]
      refine ih (acc ++ [w]) ?_
      rw [noLaterDup, List.pairwise_append]
      refine ⟨hacc, List.pairwise_singleton _ _, ?_⟩
      intro e he x hx
      rw [List.mem_singleton] at hx
      subst hx
      have := List.any_eq_false.mp hA e he
      simpa using this
    · simp only [if_true]
      exact ih acc hacc

theorem removeDuplicatesGo_dropped (xs : List WineApiSearchResult) :
    ∀ acc, ∀ x ∈ xs, x ∈ removeDuplicatesGo acc xs ∨
      ∃ e ∈ removeDuplicatesGo acc xs, isDuplicate x e = true := by
  induction xs with
  | nil => intro acc x hx; cases hx
  | cons w rest ih =>
    intro acc x hx
    simp only [removeDuplicatesGo]
    cases hA : acc.any (fun existing => isDuplicate w existing)
    · simp only [Bool.false_eq_true, if_false]
      rcases List.mem_cons.mp hx with hxw | hx
      · subst hxw
        left
        obtain ⟨t, ht, _⟩ := removeDuplicatesGo_append rest (acc ++ [x])
        rw [ht]
        exact List.mem_append_left _ (List.mem_append_right _ (List.mem_singleton_self _))
      · exact ih (acc ++ [w]) x hx
    · simp only [if_true]
      rcases List.mem_cons.mp hx with hxw | hx
      · subst hxw
        right
        rcases List.any_eq_true.mp hA with ⟨e, he, hdup⟩
        obtain ⟨t, ht, _⟩ := removeDuplicatesGo_append rest acc
        exact ⟨e, by rw [ht]; exact List.mem_append_left _ he, by simpa using hdup⟩
      · exact ih acc x hx

theorem removeDuplicatesGo_fixed (xs : List WineApiSearchResult) :
    ∀ acc, noLaterDup xs → (∀ x ∈ xs, ∀ e ∈ acc, isDuplicate x e = false) →
      removeDuplicatesGo acc xs = acc ++ xs := by
  induction xs with
  | nil => intro acc _ _; simp [removeDuplicatesGo]
  | cons w rest ih =>
    intro acc hxs hcross
    simp only [removeDuplicatesGo]
    have hA : acc.any (fun existing => isDuplicate w existing) = false := by
      rw [List.any_eq_false]
      intro e he
      simp [hcross w (List.mem_cons_self _ _) e he]
    simp only [hA, Bool.false_eq_true, if_false]
    rw [noLaterDup, List.pairwise_cons] at hxs
    have := ih (acc ++ [w]) hxs.2 ?_
    · rw [this, List.append_assoc, List.singleton_append]
    · intro x hx e he
      rcases List.mem_append.mp he with he | he
      · exact hcross x (List.mem_cons_of_mem _ hx) e he
      · rw [List.mem_singleton] at he
        subst he
        exact hxs.1 x hx

theorem removeDuplicates_sublist (xs : List WineApiSearchResult) :
    (removeDuplicates xs).Sublist xs := by
  obtain ⟨t, ht, hs⟩ := removeDuplicatesGo_append xs []
  rw [removeDuplicates, ht, List.nil_append]
  exact hs

theorem removeDuplicates_noLaterDup (xs : List WineApiSearchResult) :
    noLaterDup (removeDuplicates xs) :=
  removeDuplicatesGo_pairwise xs [] (List.Pairwise.nil)

theorem removeDuplicates_dropped (xs : List WineApiSearchResult) :
    ∀ x ∈ xs, x ∈ removeDuplicates xs ∨
      ∃ e ∈ removeDuplicates xs, isDuplicate x e = true :=
  removeDuplicatesGo_dropped xs []

theorem removeDuplicates_of_noLaterDup (xs : List WineApiSearchResult)
    (h : noLaterDup xs) : removeDuplicates xs = xs := by
  rw [removeDuplicates, removeDuplicatesGo_fixed xs [] h (by simp), List.nil_append]

theorem removeDuplicates_idem (xs : List WineApiSearchResult) :
    removeDuplicates (removeDuplicates xs) = removeDuplicates xs :=
  removeDuplicates_of_noLaterDup _ (removeDuplicates_noLaterDup xs)

theorem removeDuplicates_head (x : WineApiSearchResult) (l : List WineApiSearchResult) :
    (removeDuplicates (x :: l)).head? = some x := by
  rw [removeDuplicates]
  simp only [removeDuplicatesGo, List.any_nil, Bool.false_eq_true, if_false, List.nil_append]
  obtain ⟨t, ht, _⟩ := removeDuplicatesGo_append l [x]
  rw [ht]
  rfl

-- Step lemmas for the retry loop.

theorem retryFrom_ok {α : Type} (f : Nat → Except JsError α) (att : Nat) (a : α)
    (h : f att = .ok a) : retryFrom f att = (.ok a, []) := by
  rw [retryFrom.eq_def, h]

theorem retryFrom_error_nonretryable {α : Type} (f : Nat → Except JsError α) (att : Nat)
    (e : JsError) (h : f att = .error e) (hn : isNonRetryableError e = true) :
    retryFrom f att = (.error e, []) := by
  rw [retryFrom.eq_def, h]
  simp [hn]

theorem retryFrom_error_retry {α : Type} (f : Nat → Except JsError α) (att : Nat)
    (e : JsError) (h : f att = .error e) (hn : isNonRetryableError e = false)
    (hlt : att + 1 < MAX_RETRIES) :
    retryFrom f att =
      ((retryFrom f (att + 1)).1, RETRY_DELAYS.getD att 0 :: (retryFrom f (att + 1)).2) := by
  rw [retryFrom.eq_def, h]
  simp [hn, hlt]

theorem retryFrom_error_exhausted {α : Type} (f : Nat → Except JsError α) (att : Nat)
    (e : JsError) (h : f att = .error e) (hge : ¬ att + 1 < MAX_RETRIES) :
    retryFrom f att = (.error e, []) := by
  rw [retryFrom.eq_def, h]
  cases hN : isNonRetryableError e
  · simp [hN, hge]
  · simp [hN]

/-- C1: calculateSimilarity is the weighted score the specification
describes: Jaro-Winkler name similarity weighted 0.4, vineyard 0.3, vintage
exact-equality 0.2 (included only when both vintage years are present, i.e.
truthy), region 0.1, divided by the sum of the included weights; isDuplicate
holds exactly when the score exceeds 0.8; and removeDuplicates collapses
duplicate pairs by dropping any result that is a duplicate of an
earlier-kept result (kept results are never duplicates of earlier-kept
ones, and each dropped result has an earlier-kept duplicate). -/
theorem calculateSimilarity_isDuplicate_removeDuplicates_spec
    (w1 w2 x : WineApiSearchResult) (xs : List WineApiSearchResult)
    (hx : x ∈ xs) :
    calculateSimilarity w1 w2 = specWeightedSimilarity w1 w2
    ∧ (isDuplicate w1 w2 = true ↔ specWeightedSimilarity w1 w2 > 8/10)
    ∧ noLaterDup (removeDuplicates xs)
    ∧ (x ∉ removeDuplicates xs → ∃ e ∈ removeDuplicates xs, isDuplicate x e = true) := by
  have hsim : calculateSimilarity w1 w2 = specWeightedSimilarity w1 w2 := by
    unfold calculateSimilarity specWeightedSimilarity
    cases hv : truthyInt w1.vintage_year && truthyInt w2.vintage_year
    · simp only [Bool.false_eq_true, if_false]
      rw [if_pos (by norm_num)]
      ring_nf
    · simp only [if_true]
      rw [if_pos (by norm_num)]
      ring_nf
  refine ⟨hsim, ?_, removeDuplicates_noLaterDup xs, ?_⟩
  · rw [isDuplicate, ← hsim]
    simp
  · intro hnot
    rcases removeDuplicates_dropped xs x hx with h | h
    · exact absurd h hnot
    · exact h

/-- C1 witness: the similarity formula, the duplicate threshold and the
dedup behaviour at a concrete pair of results. -/
theorem calculateSimilarity_isDuplicate_removeDuplicates_spec_witness :
    calculateSimilarity sampleWine sampleWine = specWeightedSimilarity sampleWine sampleWine
    ∧ (isDuplicate sampleWine sampleWine = true ↔
        specWeightedSimilarity sampleWine sampleWine > 8/10)
    ∧ noLaterDup (removeDuplicates [sampleWine])
    ∧ (sampleWine ∉ removeDuplicates [sampleWine] →
        ∃ e ∈ removeDuplicates [sampleWine], isDuplicate sampleWine e = true) :=
  calculateSimilarity_isDuplicate_removeDuplicates_spec sampleWine sampleWine sampleWine
    [sampleWine] (List.mem_singleton_self sampleWine)

/-- C10: removeDuplicates returns an order-preserving sublist of its input,
always keeps the first element, and is idempotent. -/
theorem removeDuplicates_sublist_head_idem
    (xs l : List WineApiSearchResult) (x : WineApiSearchResult) :
    (removeDuplicates xs).Sublist xs
    ∧ (removeDuplicates (x :: l)).head? = some x
    ∧ removeDuplicates (removeDuplicates xs) = removeDuplicates xs :=
  ⟨removeDuplicates_sublist xs, removeDuplicates_head x l, removeDuplicates_idem xs⟩

/-- C2: retryWithExponentialBackoff throws a non-retryable error (DNS or
connection failure, 403 or 404) immediately, with no backoff wait and
independently of the outcomes of any later attempt; otherwise it attempts
the operation up to MAX_RETRIES = 3 times in total, sleeping the fixed
schedule RETRY_DELAYS = 1s, 2s between successive attempts, returns the
first success, and throws the last error after the final failed attempt. -/
theorem retryWithExponentialBackoff_spec {α : Type} (f g : Nat → Except JsError α)
    (e0 e1 e2 : JsError) (a : α) :
    (f 0 = .error e0 → isNonRetryableError e0 = true →
      retryWithExponentialBackoff f = (.error e0, [])
      ∧ (g 0 = f 0 → retryWithExponentialBackoff g = (.error e0, [])))
    ∧ (f 0 = .error e0 → isNonRetryableError e0 = false → f 1 = .error e1 →
        isNonRetryableError e1 = true →
        retryWithExponentialBackoff f = (.error e1, [1000])
        ∧ (g 0 = f 0 → g 1 = f 1 → retryWithExponentialBackoff g = (.error e1, [1000])))
    ∧ (f 0 = .ok a → retryWithExponentialBackoff f = (.ok a, []))
    ∧ (f 0 = .error e0 → isNonRetryableError e0 = false → f 1 = .ok a →
        retryWithExponentialBackoff f = (.ok a, [1000]))
    ∧ (f 0 = .error e0 → isNonRetryableError e0 = false → f 1 = .error e1 →
        isNonRetryableError e1 = false → f 2 = .ok a →
        retryWithExponentialBackoff f = (.ok a, [1000, 2000]))
    ∧ (f 0 = .error e0 → isNonRetryableError e0 = false → f 1 = .error e1 →
        isNonRetryableError e1 = false → f 2 = .error e2 →
        retryWithExponentialBackoff f = (.error e2, [1000, 2000])) := by
  refine ⟨?_, ?_, ?_, ?_, ?_, ?_⟩
  · intro h0 hn
    refine ⟨retryFrom_error_nonretryable f 0 e0 h0 hn, ?_⟩
    intro hg0
    exact retryFrom_error_nonretryable g 0 e0 (hg0.trans h0) hn
  · intro h0 hn0 h1 hn1
    constructor
    · rw [retryWithExponentialBackoff,
        retryFrom_error_retry f 0 e0 h0 hn0 (by decide),
        retryFrom_error_nonretryable f 1 e1 h1 hn1]
      rfl
    · intro hg0 hg1
      rw [retryWithExponentialBackoff,
        retryFrom_error_retry g 0 e0 (hg0.trans h0) hn0 (by decide),
        retryFrom_error_nonretryable g 1 e1 (hg1.trans h1) hn1]
      rfl
  · intro h0
    exact retryFrom_ok f 0 a h0
  · intro h0 hn0 h1
    rw [retryWithExponentialBackoff,
      retryFrom_error_retry f 0 e0 h0 hn0 (by decide),
      retryFrom_ok f 1 a h1]
    rfl
  · intro h0 hn0 h1 hn1 h2
    rw [retryWithExponentialBackoff,
      retryFrom_error_retry f 0 e0 h0 hn0 (by decide),
      retryFrom_error_retry f 1 e1 h1 hn1 (by decide),
      retryFrom_ok f 2 a h2]
    rfl
  · intro h0 hn0 h1 hn1 h2
    rw [retryWithExponentialBackoff,
      retryFrom_error_retry f 0 e0 h0 hn0 (by decide),
      retryFrom_error_retry f 1 e1 h1 hn1 (by decide),
      retryFrom_error_exhausted f 2 e2 h2 (by decide)]
    rfl

/-- C2 witness: an operation failing with a retryable (unknown) error on all
three attempts is retried with the 1s and 2s waits and the last error is
rethrown. -/
theorem retryWithExponentialBackoff_spec_witness :
    alwaysRetryErrOp 0 = .error retryableErr
    ∧ isNonRetryableError retryableErr = false
    ∧ retryWithExponentialBackoff alwaysRetryErrOp = (.error retryableErr, [1000, 2000]) :=
  ⟨rfl, by decide,
    (retryWithExponentialBackoff_spec alwaysRetryErrOp alwaysRetryErrOp
      retryableErr retryableErr retryableErr 0).2.2.2.2.2
      rfl (by decide) rfl (by decide) rfl⟩

/-- C3 counterexample: with no recognized source, a rating of 150 is NOT
kept as an already-100-point rating (the claimed behaviour would give
`some 150`); the code returns no rating at all, because the auto-detection
falls through both the [1,5] and the [1,100] range checks. -/
theorem normalizeRating_autodetect_counterexample :
    normalizeRating (some 150) none = none
    ∧ normalizeRating (some 150) none ≠ some (jsRound 150) := by
  constructor
  · norm_num [normalizeRating]
  · norm_num [normalizeRating]
    simp

/-- C3 amended: normalizeRating with a nonzero rating behaves as follows.
For source vivino, a rating in [1,5] is multiplied by 20 and rounded, any
other rating is dropped.  For source wine_api, a rating in [1,100] is
rounded and kept, any other rating is dropped.  For any other (or no)
source the scale is auto-detected: a rating in [1,5] is multiplied by 20
and rounded, otherwise a rating in [1,100] is rounded and kept, and any
other rating is dropped (not assumed to be 100-point).  A missing or zero
(falsy) rating yields no rating. -/
theorem normalizeRating_scale_spec (r : ℚ) (src : Option Str) (h0 : r ≠ 0) :
    (src = some (str "vivino") →
       (1 ≤ r ∧ r ≤ 5 → normalizeRating (some r) src = some (jsRound (r * 20)))
       ∧ (¬(1 ≤ r ∧ r ≤ 5) → normalizeRating (some r) src = none))
    ∧ (src = some (str "wine_api") →
       (1 ≤ r ∧ r ≤ 100 → normalizeRating (some r) src = some (jsRound r))
       ∧ (¬(1 ≤ r ∧ r ≤ 100) → normalizeRating (some r) src = none))
    ∧ (src ≠ some (str "vivino") → src ≠ some (str "wine_api") →
       (1 ≤ r ∧ r ≤ 5 → normalizeRating (some r) src = some (jsRound (r * 20)))
       ∧ (¬(1 ≤ r ∧ r ≤ 5) → 1 ≤ r ∧ r ≤ 100 →
           normalizeRating (some r) src = some (jsRound r))
       ∧ (¬(1 ≤ r ∧ r ≤ 5) → ¬(1 ≤ r ∧ r ≤ 100) →
           normalizeRating (some r) src = none))
    ∧ normalizeRating none src = none
    ∧ normalizeRating (some 0) src = none := by
  refine ⟨?_, ?_, ?_, rfl, by simp [normalizeRating]⟩
  · intro hsrc
    subst hsrc
    constructor
    · intro hr
      simp only [normalizeRating]
      rw [if_neg h0, if_pos trivial, if_pos hr]
    · intro hr
      simp only [normalizeRating]
      rw [if_neg h0, if_pos trivial, if_neg hr]
  · intro hsrc
    subst hsrc
    constructor
    · intro hr
      simp only [normalizeRating]
      rw [if_neg h0, if_neg (by decide), if_pos trivial, if_pos hr]
    · intro hr
      simp only [normalizeRating]
      rw [if_neg h0, if_neg (by decide), if_pos trivial, if_neg hr]
  · intro hv hw
    refine ⟨?_, ?_, ?_⟩
    · intro hr
      simp only [normalizeRating]
      rw [if_neg h0, if_neg hv, if_neg hw, if_pos hr]
    · intro hr5 hr100
      simp only [normalizeRating]
      rw [if_neg h0, if_neg hv, if_neg hw, if_neg hr5, if_pos hr100]
    · intro hr5 hr100
      simp only [normalizeRating]
      rw [if_neg h0, if_neg hv, if_neg hw, if_neg hr5, if_neg hr100]

/-- C3 witness: the amended characterization applied at the concrete
out-of-range rating 150 with no source. -/
theorem normalizeRating_scale_spec_witness :
    (150 : ℚ) ≠ 0 ∧ normalizeRating (some 150) none = none :=
  ⟨by norm_num,
    ((normalizeRating_scale_spec 150 none (by norm_num)).2.2.1 (by simp) (by simp)).2.2
      (by norm_num) (by norm_num)⟩

-- Helper lemmas about rack-slot clearing and the consumed transition.

theorem clearSlotByWineId_no_wine (now : Time) (wid : Str) (slots : List SlotRow) :
    ∀ s ∈ clearSlotByWineId now wid slots, s.wine_id ≠ some wid := by
  intro s hs
  simp only [clearSlotByWineId] at hs
  rcases List.mem_map.mp hs with ⟨s0, _, rfl⟩
  by_cases h : s0.wine_id = some wid
  · rw [if_pos h]
    simp
  · rw [if_neg h]
    exact h

theorem clearSlotByWineId_mem (now : Time) (wid : Str) (slots : List SlotRow) :
    ∀ s ∈ slots, s.wine_id = some wid →
      { s with wine_id := none, is_occupied := false,
               last_updated := now, updated_at := now } ∈ clearSlotByWineId now wid slots := by
  intro s hs h
  simp only [clearSlotByWineId]
  refine List.mem_map.mpr ⟨s, hs, ?_⟩
  rw [if_pos h]

theorem wineModelUpdate_consumed_wines (now : Time) (id : Str) (u : UpdateWineReq)
    (st : DBState) (hu : u.consumption_status = some ConsumptionStatus.consumed) :
    ∀ w ∈ (wineModelUpdate now id u st).wines, w.id = id →
      w.rack_slot = none ∧ w.consumption_status = ConsumptionStatus.consumed := by
  intro w hw hid
  simp only [wineModelUpdate, hu, if_pos] at hw
  rcases List.mem_map.mp hw with ⟨w0, _, rfl⟩
  by_cases h : w0.id = id
  · rw [if_pos h] at hid ⊢
    simp [applyWineUpdate, hu]
  · rw [if_neg h] at hid
    exact absurd hid h

theorem wineModelUpdate_consumed_slots (now : Time) (id : Str) (u : UpdateWineReq)
    (st : DBState) (hu : u.consumption_status = some ConsumptionStatus.consumed) :
    (wineModelUpdate now id u st).rackSlots = clearSlotByWineId now id st.rackSlots := by
  simp [wineModelUpdate, hu]

theorem wineModelMarkConsumed_wines (now : Time) (id : Str) (d : Option Time)
    (st : DBState) :
    ∀ w ∈ (wineModelMarkConsumed now id d st).wines, w.id = id →
      w.rack_slot = none ∧ w.consumption_status = ConsumptionStatus.consumed := by
  intro w hw hid
  simp only [wineModelMarkConsumed] at hw
  rcases List.mem_map.mp hw with ⟨w0, _, rfl⟩
  by_cases h : w0.id = id
  · rw [if_pos h] at hid ⊢
    simp
  · rw [if_neg h] at hid
    exact absurd hid h

/-- C4: every operation that sets a wine to Consumed (WineModel.update given
that status, WineModel.markConsumed, and the consume endpoint when it
proceeds) nulls the wine's rack_slot column, and clears every rack-slot row
assigned to the wine (wine_id nulled, is_occupied false), so a Consumed wine
retains no rack slot. -/
theorem consumed_clears_rack_slot (now : Time) (id : Str) (u : UpdateWineReq)
    (d : Option Time) (st : DBState) (w0 : WineRow)
    (hu : u.consumption_status = some ConsumptionStatus.consumed) :
    (∀ w ∈ (wineModelUpdate now id u st).wines, w.id = id →
       w.rack_slot = none ∧ w.consumption_status = ConsumptionStatus.consumed)
    ∧ (∀ s ∈ (wineModelUpdate now id u st).rackSlots, s.wine_id ≠ some id)
    ∧ (∀ s ∈ st.rackSlots, s.wine_id = some id →
        { s with wine_id := none, is_occupied := false,
                 last_updated := now, updated_at := now }
          ∈ (wineModelUpdate now id u st).rackSlots)
    ∧ (∀ w ∈ (wineModelMarkConsumed now id d st).wines, w.id = id →
        w.rack_slot = none ∧ w.consumption_status = ConsumptionStatus.consumed)
    ∧ (∀ s ∈ (wineModelMarkConsumed now id d st).rackSlots, s.wine_id ≠ some id)
    ∧ (∀ s ∈ st.rackSlots, s.wine_id = some id →
        { s with wine_id := none, is_occupied := false,
                 last_updated := now, updated_at := now }
          ∈ (wineModelMarkConsumed now id d st).rackSlots)
    ∧ (wineModelFindById id st = some w0 →
        w0.consumption_status ≠ ConsumptionStatus.consumed →
        (consumeWineHandler now id d st).1 = 200
        ∧ ∀ w ∈ (consumeWineHandler now id d st).2.wines, w.id = id →
            w.rack_slot = none ∧ w.consumption_status = ConsumptionStatus.consumed) := by
  refine ⟨wineModelUpdate_consumed_wines now id u st hu, ?_, ?_,
    wineModelMarkConsumed_wines now id d st, ?_, ?_, ?_⟩
  · rw [wineModelUpdate_consumed_slots now id u st hu]
    exact clearSlotByWineId_no_wine now id st.rackSlots
  · intro s hs h
    rw [wineModelUpdate_consumed_slots now id u st hu]
    exact clearSlotByWineId_mem now id st.rackSlots s hs h
  · show ∀ s ∈ clearSlotByWineId now id st.rackSlots, s.wine_id ≠ some id
    exact clearSlotByWineId_no_wine now id st.rackSlots
  · intro s hs h
    show _ ∈ clearSlotByWineId now id st.rackSlots
    exact clearSlotByWineId_mem now id st.rackSlots s hs h
  · intro hfind hstatus
    simp only [consumeWineHandler, hfind]
    rw [if_neg hstatus]
    exact ⟨rfl, wineModelMarkConsumed_wines now id (some (d.getD now)) st⟩

/-- C4 witness: consuming the concrete wine in the concrete one-wine,
one-slot state clears both the wine row's slot and the slot row. -/
theorem consumed_clears_rack_slot_witness :
    consumeUpdate.consumption_status = some ConsumptionStatus.consumed
    ∧ (∀ s ∈ (wineModelUpdate 5 (str "wine-1") consumeUpdate sampleDB).rackSlots,
        s.wine_id ≠ some (str "wine-1")) :=
  ⟨rfl,
    (consumed_clears_rack_slot 5 (str "wine-1") consumeUpdate none sampleDB
      sampleWineRow rfl).2.1⟩

/-- C5: POST /api/wines and PUT /api/wines/:id respond 400 with the stored
state unchanged whenever the body supplies a (truthy) vintage_year outside
[1800, current year] or a (truthy) rating outside [1,100]; bodies whose
vintage_year and rating pass those range checks are not rejected by them
(they proceed to 201 resp. 200 when the other validations pass). -/
theorem wine_route_range_validation (cy : Int) (now : Time) (newId id : Str)
    (b : WineReqBody) (st : DBState) (w0 : WineRow) :
    ((vintageRejected cy b.vintage_year = true ∨ ratingRejected b.rating = true) →
       postWineHandler cy now newId b st = (400, st)
       ∧ (wineModelFindById id st = some w0 → putWineHandler cy now id b st = (400, st)))
    ∧ (vintageRejected cy b.vintage_year = false → ratingRejected b.rating = false →
       (truthyStr b.name && truthyStr b.vineyard && truthyStr b.region
         && truthyStr b.color && b.grape_varieties.isSome) = true →
       validColors.contains (b.color.getD []) = true →
       postWineHandler cy now newId b st =
         (201, { st with wines := st.wines ++ [mkWineRowFromBody now newId b] }))
    ∧ (vintageRejected cy b.vintage_year = false → ratingRejected b.rating = false →
       wineModelFindById id st = some w0 →
       (truthyStr b.color && !(validColors.contains (b.color.getD []))) = false →
       (truthyStr b.consumption_status
         && !(validStatuses.contains (b.consumption_status.getD []))) = false →
       putWineHandler cy now id b st = (200, wineModelUpdate now id (toUpdateReq b) st)) := by
  refine ⟨?_, ?_, ?_⟩
  · intro hrej
    constructor
    · simp only [postWineHandler]
      rcases hrej with hv | hr
      · split_ifs <;> rfl
      · split_ifs <;> rfl
    · intro hfind
      simp only [putWineHandler, hfind]
      rcases hrej with hv | hr
      · split_ifs <;> rfl
      · split_ifs <;> rfl
  · intro hv hr hreq hcol
    simp only [postWineHandler]
    rw [if_neg (by rw [hreq]; simp), if_neg (by rw [hcol]; simp),
      if_neg (by rw [hv]; simp), if_neg (by rw [hr]; simp)]
  · intro hv hr hfind hcolok hstat
    simp only [putWineHandler, hfind]
    rw [if_neg (by rw [hcolok]; simp), if_neg (by rw [hv]; simp),
      if_neg (by rw [hr]; simp), if_neg (by rw [hstat]; simp)]

/-- C5 witness: a body with vintage year 1700 is rejected with 400 and the
stored state is unchanged. -/
theorem wine_route_range_validation_witness :
    (vintageRejected 2026 badVintageBody.vintage_year = true
      ∨ ratingRejected badVintageBody.rating = true)
    ∧ postWineHandler 2026 7 (str "new-id") badVintageBody sampleDB = (400, sampleDB) :=
  ⟨Or.inl (by decide),
    ((wine_route_range_validation 2026 7 (str "new-id") (str "wine-1") badVintageBody
        sampleDB sampleWineRow).1 (Or.inl (by decide))).1⟩

/-- C6: searchWine returns the first `options.limit || 10` elements of
removeDuplicates applied to the element-wise normalizeWineData of the
Vivino results followed by the wine-API results, and a thrown failure of
either source contributes nothing while the other source is still
processed; the wine-API leg is the mock implementation. -/
theorem searchWine_pipeline_spec (cy : Int) (lv lw : List WineApiSearchResult)
    (e : JsError) (v : Except JsError (List WineApiSearchResult))
    (lim : Option Nat) (opts : WineApiSearchOptions) :
    searchWine cy (.ok lv) (.ok lw) lim
      = (normalizeAndDedup cy (lv ++ lw)).take (jsOrNat lim 10)
    ∧ searchWine cy (.error e) (.ok lw) lim = searchWine cy (.ok []) (.ok lw) lim
    ∧ searchWine cy (.ok lv) (.error e) lim = searchWine cy (.ok lv) (.ok []) lim
    ∧ searchWineWithMock cy opts v
      = searchWine cy v (.ok (mockWineApiResults opts)) opts.limit :=
  ⟨rfl, rfl, rfl, rfl⟩

/-- C7: rateLimit guarantees at least RATE_LIMIT_DELAY = 2000 ms between the
recorded last-request timestamps of consecutive requests, increments the
request counter by exactly one, computes its wait from the stored
last-request timestamp only, and every outbound-request operation of the
service applies it first (the three non-scraping operations touch the
state only through it, and the Vivino scrape additionally acquires the
browser afterwards). -/
theorem rate_limit_spec (now : Int) (s s2 : ServiceState)
    (h : s2.lastRequestTime = s.lastRequestTime) :
    (rateLimitStep now s).1.lastRequestTime - s.lastRequestTime ≥ RATE_LIMIT_DELAY
    ∧ (rateLimitStep now s).1.requestCount = s.requestCount + 1
    ∧ (rateLimitStep now s2).2 = (rateLimitStep now s).2
    ∧ (performVivinoSearchState now s).requestCount = s.requestCount + 1
    ∧ (performVivinoSearchState now s).lastRequestTime
        = (rateLimitStep now s).1.lastRequestTime
    ∧ searchWineApiState now s = (rateLimitStep now s).1
    ∧ getWineDetailsState now s = (rateLimitStep now s).1
    ∧ suggestFoodPairingsState now s = (rateLimitStep now s).1 := by
  refine ⟨?_, rfl, ?_, ?_, ?_, rfl, rfl, rfl⟩
  · simp only [rateLimitStep, RATE_LIMIT_DELAY]
    split_ifs with h1 <;> simp <;> omega
  · simp only [rateLimitStep, h]
  · simp only [performVivinoSearchState, getBrowserStep]
    cases hb : (rateLimitStep now s).1.browser <;> rfl
  · simp only [performVivinoSearchState, getBrowserStep]
    cases hb : (rateLimitStep now s).1.browser <;> rfl

/-- C7 witness: the rate-limit properties at a concrete clock and a concrete
fresh service state. -/
theorem rate_limit_spec_witness :
    sampleService.lastRequestTime = sampleService.lastRequestTime
    ∧ (rateLimitStep 5 sampleService).1.lastRequestTime
        - sampleService.lastRequestTime ≥ RATE_LIMIT_DELAY :=
  ⟨rfl, (rate_limit_spec 5 sampleService sampleService rfl).1⟩

/-- C9: getBrowser reuses a stored browser without launching, launches and
stores a fresh instance when none is stored, a second call returns the same
instance with no further launch, and cleanup (closeBrowser) resets the
stored reference to null so a later getBrowser launches a fresh instance. -/
theorem browser_lifecycle_spec (s : ServiceState) (b : Nat) :
    (s.browser = some b → getBrowserStep s = (b, s))
    ∧ (s.browser = none →
        (getBrowserStep s).2.browser = some s.launches
        ∧ (getBrowserStep s).2.launches = s.launches + 1)
    ∧ getBrowserStep (getBrowserStep s).2 = ((getBrowserStep s).1, (getBrowserStep s).2)
    ∧ (cleanupStep s).browser = none
    ∧ (getBrowserStep (cleanupStep s)).2.browser = some (cleanupStep s).launches
    ∧ (getBrowserStep (cleanupStep s)).2.launches = s.launches + 1 := by
  refine ⟨?_, ?_, ?_, rfl, rfl, rfl⟩
  · intro hb
    simp [getBrowserStep, hb]
  · intro hb
    simp [getBrowserStep, hb]
  · cases hb : s.browser <;> simp [getBrowserStep, hb]

/-- C9 witness: the lifecycle at a concrete fresh state: launching, reuse
and cleanup behave as stated. -/
theorem browser_lifecycle_spec_witness :
    sampleService.browser = none
    ∧ (getBrowserStep sampleService).2.browser = some sampleService.launches
    ∧ (getBrowserStep sampleService).2.launches = sampleService.launches + 1 :=
  ⟨rfl, (browser_lifecycle_spec sampleService 0).2.1 rfl⟩

/-- C8 counterexample: the normalization pipeline is NOT independent of the
ambient clock: the same input evaluated with the clock reading year 2026 and
year 2027 yields different outputs, because normalizeVintage validates the
vintage against the current year. -/
theorem pipeline_clock_dependence_counterexample :
    normalizeAndDedup 2026 [futureVintageWine] ≠ normalizeAndDedup 2027 [futureVintageWine] := by
  have h1 : normalizeAndDedup 2026 [futureVintageWine]
      = [normalizeWineData 2026 futureVintageWine] := by
    simp [normalizeAndDedup, removeDuplicates, removeDuplicatesGo]
  have h2 : normalizeAndDedup 2027 [futureVintageWine]
      = [normalizeWineData 2027 futureVintageWine] := by
    simp [normalizeAndDedup, removeDuplicates, removeDuplicatesGo]
  intro h
  rw [h1, h2] at h
  have h3 := congrArg (fun l => l.map WineApiSearchResult.vintage_year) h
  have h4 : (normalizeWineData 2026 futureVintageWine).vintage_year
      = normalizeVintage 2026 (some 2027) := rfl
  have h5 : (normalizeWineData 2027 futureVintageWine).vintage_year
      = normalizeVintage 2027 (some 2027) := rfl
  have h6 : normalizeVintage 2026 (some 2027) = none := by norm_num [normalizeVintage]
  have h7 : normalizeVintage 2027 (some 2027) = some 2027 := by norm_num [normalizeVintage]
  simp only [List.map_cons, List.map_nil, h4, h5, h6, h7] at h3
  simp at h3

/-- C8 amended: the pipeline is a deterministic pure function of the input
list and the current clock year (so two evaluations under the same year
agree), and its dependence on the clock is confined to the vintage_year
validation: erasing vintage_year makes the per-element normalization
independent of the year. -/
theorem pipeline_clock_dependence_spec (y1 y2 cy : Int) (w : WineApiSearchResult)
    (xs : List WineApiSearchResult) :
    { normalizeWineData y1 w with vintage_year := none }
      = { normalizeWineData y2 w with vintage_year := none }
    ∧ normalizeWineData y1 w
      = { normalizeWineData y2 w with vintage_year := normalizeVintage y1 w.vintage_year }
    ∧ normalizeAndDedup cy xs = removeDuplicates (xs.map (normalizeWineData cy)) :=
  ⟨rfl, rfl, rfl⟩
